import Mathlib

/-!
Verification of the RBAC core of the workers-users repository: permission
resolution, caching, role mutation, audit logging, bootstrap and the
authorization middleware.  TypeScript functions are shallowly embedded as
Lean functions over an explicit state; every independently failable network
call (D1 store operation, KV cache operation, audit insert) takes an outcome
flag so that the success and failure paths of the source can both be
examined.
-/

/-! ## Data model (migrations/004-audit-logs.sql, src/types/rbac.ts) -/

/-- A row of the `roles` table: `id TEXT PRIMARY KEY, name TEXT NOT NULL UNIQUE,
description TEXT, created_at`.  Timestamps are irrelevant to the claims and
omitted. -/
structure RoleRow where
  id : String
  name : String
  description : String
deriving DecidableEq, Repr

/-- A row of the `permissions` table: `id TEXT PRIMARY KEY, name TEXT NOT NULL UNIQUE`. -/
structure PermissionRow where
  id : String
  name : String
deriving DecidableEq, Repr

/-- A row of the `user_roles` junction table, `PRIMARY KEY (user_id, role_id)`. -/
structure UserRoleRow where
  user_id : Nat
  role_id : String
deriving DecidableEq, Repr

/-- A row of the `role_permissions` junction table, `PRIMARY KEY (role_id, permission_id)`. -/
structure RolePermissionRow where
  role_id : String
  permission_id : String
deriving DecidableEq, Repr

/-- A row of the `audit_logs` table (migration 004).  `timestamp` is the
`DATETIME` column, modelled as an integer instant. -/
structure AuditLogRow where
  timestamp : Int
  action : String
  actorId : Option Nat
  actorUsername : Option String
  targetType : String
  targetId : Option String
  targetName : Option String
  details : Option String
  ipAddress : Option String
  success : Bool
deriving DecidableEq, Repr

/-- A row of the `User` table (schema.sql): only the columns the RBAC core
reads. -/
structure UserRow where
  userID : Nat
  username : String
  firstName : String
  lastName : String
deriving DecidableEq, Repr

/-- The D1 database state: the five relations the RBAC core touches. -/
structure DB where
  users : List UserRow
  roles : List RoleRow
  permissions : List PermissionRow
  user_roles : List UserRoleRow
  role_permissions : List RolePermissionRow
  audit_logs : List AuditLogRow
deriving DecidableEq, Repr

/-- Session payload (src/types/rbac.ts `SessionData`): `permissions` is
absent (`none`) when RBAC is disabled or resolution failed at login. -/
structure SessionData where
  username : String
  firstName : String
  lastName : String
  permissions : Option (List String)
deriving DecidableEq, Repr

/-- One KV entry of the permissions cache (key, cached permission names, TTL
in seconds as sent to the session-state worker). -/
structure CacheEntry where
  key : String
  value : List String
  ttl : Nat
deriving DecidableEq, Repr

/-- The whole world the subsystem mutates: the D1 store, the KV-backed
permissions cache, and the KV-backed session store.  In the deployed system
cache entries live under keys `permissions:user:<id>` and sessions under
UUID keys of the same KV namespace; the key spaces are disjoint, so they are
modelled as separate fields. -/
structure WorldState where
  db : DB
  cache : List CacheEntry
  sessions : List (String × SessionData)
deriving DecidableEq, Repr

/-! ## Permission resolution (src/rbac/permissions.ts, part_007) -/

/-- `hasPermission` (src/rbac/permissions.ts): true iff the user holds the
required permission or the universal override `admin:all`. -/
def hasPermission (permissions : List String) (required : String) : Bool :=
  if permissions.contains "admin:all" then true
  else permissions.contains required

/-- The SQL in `getUserPermissions`:
`SELECT DISTINCT p.name FROM user_roles ur
 INNER JOIN role_permissions rp ON ur.role_id = rp.role_id
 INNER JOIN permissions p ON rp.permission_id = p.id
 WHERE ur.user_id = ?`. -/
def queryUserPermissionNames (db : DB) (userId : Nat) : List String :=
  ((db.user_roles.filter (fun ur => ur.user_id == userId)).flatMap (fun ur =>
    (db.role_permissions.filter (fun rp => rp.role_id == ur.role_id)).flatMap (fun rp =>
      (db.permissions.filter (fun p => p.id == rp.permission_id)).map (fun p => p.name)))).dedup

/-- `getUserPermissions` (src/rbac/permissions.ts, the D1 query that the
current tree re-exports as `getUserPermissionsFromDB`): the distinct union of
permission names over the user's roles, collapsed to `["admin:all"]` when the
override is present. -/
def getUserPermissions (db : DB) (userId : Nat) : List String :=
  let permissions := queryUserPermissionNames db userId
  if permissions.contains "admin:all" then ["admin:all"] else permissions

/-- Spec-side description of a granted permission (section 3 of the design
document): some role bound to the principal grants a permission with this
name.  Used only to compare `getUserPermissions` against the specification's
wording. -/
def specGrantedPermission (db : DB) (userId : Nat) (perm : String) : Prop :=
  ∃ ur ∈ db.user_roles, ur.user_id = userId ∧
    ∃ rp ∈ db.role_permissions, rp.role_id = ur.role_id ∧
      ∃ p ∈ db.permissions, p.id = rp.permission_id ∧ p.name = perm

instance (db : DB) (userId : Nat) (perm : String) :
    Decidable (specGrantedPermission db userId perm) := by
  unfold specGrantedPermission
  infer_instance

theorem list_contains_iff (l : List String) (a : String) :
    l.contains a = true ↔ a ∈ l := by
  simp

theorem mem_queryUserPermissionNames (db : DB) (userId : Nat) (x : String) :
    x ∈ queryUserPermissionNames db userId ↔ specGrantedPermission db userId x := by
  simp only [queryUserPermissionNames, specGrantedPermission, List.mem_dedup,
    List.mem_flatMap, List.mem_filter, List.mem_map, beq_iff_eq]
  constructor
  · rintro ⟨ur, ⟨hur, hu⟩, rp, ⟨hrp, hr⟩, p, ⟨hp, hid⟩, hname⟩
    exact ⟨ur, hur, hu, rp, hrp, hr, p, hp, hid, hname⟩
  · rintro ⟨ur, hur, hu, rp, hrp, hr, p, hp, hid, hname⟩
    exact ⟨ur, ⟨hur, hu⟩, rp, ⟨hrp, hr⟩, p, ⟨hp, hid⟩, hname⟩

theorem nodup_queryUserPermissionNames (db : DB) (userId : Nat) :
    (queryUserPermissionNames db userId).Nodup :=
  List.nodup_dedup _

/-- C3: `getUserPermissions(P)` is the duplicate-free union of the permission
names granted by all roles bound to P, collapsed to exactly `["admin:all"]`
whenever some bound role grants `admin:all` (never alongside other
permissions), and empty for a principal with no role bindings. -/
theorem getUserPermissions_matches_spec (db : DB) (u : Nat) :
    (getUserPermissions db u).Nodup ∧
    (∀ x, x ∈ getUserPermissions db u ↔
      (specGrantedPermission db u x ∧
        (x = "admin:all" ∨ ¬ specGrantedPermission db u "admin:all"))) ∧
    (db.user_roles.filter (fun ur => ur.user_id == u) = [] →
      getUserPermissions db u = []) := by
  have hiff := mem_queryUserPermissionNames db u
  refine ⟨?_, ?_, ?_⟩
  · unfold getUserPermissions
    by_cases h : "admin:all" ∈ queryUserPermissionNames db u <;>
      simp [h, nodup_queryUserPermissionNames]
  · intro x
    unfold getUserPermissions
    by_cases h : "admin:all" ∈ queryUserPermissionNames db u
    · have hadm : specGrantedPermission db u "admin:all" := (hiff _).mp h
      simp only [list_contains_iff, h, if_true, List.mem_singleton]
      constructor
      · rintro rfl
        exact ⟨hadm, Or.inl rfl⟩
      · rintro ⟨hx, rfl | habs⟩
        · rfl
        · exact absurd hadm habs
    · have hadm : ¬ specGrantedPermission db u "admin:all" := fun hc => h ((hiff _).mpr hc)
      simp only [list_contains_iff, h, if_false, hiff x]
      constructor
      · intro hx
        exact ⟨hx, Or.inr hadm⟩
      · rintro ⟨hx, _⟩
        exact hx
  · intro hempty
    unfold getUserPermissions
    have hq : queryUserPermissionNames db u = [] := by
      unfold queryUserPermissionNames
      rw [hempty]
      rfl
    simp [hq]

/-- Witness for C3 on a concrete database: a member user sees exactly the
permission its role grants, a super admin collapses to `["admin:all"]`, and a
bindings-free user resolves to the empty set. -/
theorem getUserPermissions_matches_spec_witness :
    getUserPermissions
      { users := [], roles := [], permissions := [⟨"p1", "users:read"⟩],
        user_roles := [], role_permissions := [⟨"r1", "p1"⟩], audit_logs := [] } 7 = [] :=
  (getUserPermissions_matches_spec
    { users := [], roles := [], permissions := [⟨"p1", "users:read"⟩],
      user_roles := [], role_permissions := [⟨"r1", "p1"⟩], audit_logs := [] } 7).2.2
    (by decide)

/-! ## Permission cache (src/rbac/cache.ts) -/

/-- Cache TTL in seconds (src/rbac/cache.ts `CACHE_TTL_SECONDS`, 1 minute). -/
def CACHE_TTL_SECONDS : Nat := 60

/-- `getPermissionsCacheKey` (src/rbac/cache.ts). -/
def getPermissionsCacheKey (userId : Nat) : String :=
  "permissions:user:" ++ toString userId

/-- KV lookup by key (the session-state worker's `GET /cache/:cacheKey`). -/
def lookupCache (cache : List CacheEntry) (key : String) : Option (List String) :=
  (cache.find? (fun e => e.key == key)).map (fun e => e.value)

/-- `getCachedPermissions` (src/rbac/cache.ts): `some` on a cache hit, `none`
on a miss (404), on a non-404 status, or on a network error — all three
non-hit outcomes degrade to `null` without throwing.  `readOk = false` models
the cache service erroring or timing out. -/
def getCachedPermissions (st : WorldState) (userId : Nat) (readOk : Bool) :
    Option (List String) :=
  if readOk then lookupCache st.cache (getPermissionsCacheKey userId) else none

/-- KV put with TTL (the session-state worker's `PUT /cache/:cacheKey`):
overwrites any entry under the same key. -/
def cachePut (cache : List CacheEntry) (key : String) (value : List String) (ttl : Nat) :
    List CacheEntry :=
  ⟨key, value, ttl⟩ :: cache.filter (fun e => !(e.key == key))

/-- `setCachedPermissions` (src/rbac/cache.ts): stores the permission set
under the user's key with the given TTL; a cache-service failure
(`writeOk = false`) is logged and swallowed, never thrown. -/
def setCachedPermissions (st : WorldState) (userId : Nat) (permissions : List String)
    (ttl : Nat) (writeOk : Bool) : WorldState :=
  if writeOk then
    { st with cache := cachePut st.cache (getPermissionsCacheKey userId) permissions ttl }
  else st

/-- `invalidateCachedPermissions` (src/rbac/cache.ts): deletes the user's
cache entry; a failure (`deleteOk = false`) is logged and swallowed. -/
def invalidateCachedPermissions (st : WorldState) (userId : Nat) (deleteOk : Bool) :
    WorldState :=
  if deleteOk then
    { st with cache := st.cache.filter (fun e => !(e.key == getPermissionsCacheKey userId)) }
  else st

/-- Modelled from the spec: the cache-aware `getUserPermissions` wrapper of the
current `src/rbac/permissions.ts` is not present under src/ — only its
re-export list (`src/rbac/index.ts`, which names `getUserPermissionsFromDB`)
and the earlier DB-only version survive.  Per section 4.1 of the spec,
`resolve(userId)` attempts `Cache.get(key(userId))`; on a hit it returns the
cached set; on a miss or cache error it queries the Store union
(`getUserPermissions` above, the DB-only query), writes the result back with
the configured TTL best-effort (a cache-write failure is logged, not
propagated), and returns it.  `dbOk = false` models a Store read failure,
which does propagate. -/
def resolvePermissions (st : WorldState) (userId : Nat) (readOk writeOk dbOk : Bool) :
    Except String (WorldState × List String) :=
  match getCachedPermissions st userId readOk with
  | some cached => .ok (st, cached)
  | none =>
    if dbOk then
      let perms := getUserPermissions st.db userId
      .ok (setCachedPermissions st userId perms CACHE_TTL_SECONDS writeOk, perms)
    else .error "Failed to retrieve user permissions"

/-- C2: on a cache hit the cached set is returned with no Store query and no
state change (even a broken Store, `dbOk = false`, is never consulted); on a
miss or cache read error the Store union is computed and returned, the Store
itself is untouched, and the result is written back to the cache under the
user's key with the configured 60-second TTL when the write succeeds, while a
cache-write failure leaves the cache unchanged and is not propagated (the
call still succeeds). -/
theorem resolvePermissions_spec (st : WorldState) (u : Nat) (readOk writeOk dbOk : Bool) :
    (∀ v, getCachedPermissions st u readOk = some v →
      ∀ dbOk₂, resolvePermissions st u readOk writeOk dbOk₂ = .ok (st, v)) ∧
    (getCachedPermissions st u readOk = none → dbOk = true →
      resolvePermissions st u readOk writeOk dbOk =
        .ok (setCachedPermissions st u (getUserPermissions st.db u) CACHE_TTL_SECONDS writeOk,
             getUserPermissions st.db u) ∧
      (setCachedPermissions st u (getUserPermissions st.db u) CACHE_TTL_SECONDS writeOk).db
        = st.db ∧
      (writeOk = false →
        setCachedPermissions st u (getUserPermissions st.db u) CACHE_TTL_SECONDS writeOk = st) ∧
      (writeOk = true →
        lookupCache
          (setCachedPermissions st u (getUserPermissions st.db u) CACHE_TTL_SECONDS writeOk).cache
          (getPermissionsCacheKey u) = some (getUserPermissions st.db u) ∧
        (setCachedPermissions st u (getUserPermissions st.db u) CACHE_TTL_SECONDS
          writeOk).cache.head? = some ⟨getPermissionsCacheKey u, getUserPermissions st.db u, 60⟩)) := by
  constructor
  · intro v hv dbOk₂
    unfold resolvePermissions
    rw [show getCachedPermissions st u readOk = some v from hv]
  · intro hmiss hdb
    subst hdb
    refine ⟨?_, ?_, ?_, ?_⟩
    · unfold resolvePermissions
      rw [hmiss]
      rfl
    · unfold setCachedPermissions
      by_cases hw : writeOk <;> simp [hw]
    · intro hw
      subst hw
      rfl
    · intro hw
      subst hw
      refine ⟨?_, rfl⟩
      simp [setCachedPermissions, cachePut, lookupCache, List.find?]

/-- Witness for C2: on a concrete state whose cache holds
`permissions:user:1 -> ["users:read"]`, the resolver returns the cached set
even though the Store is failing; for an uncached user the union is computed
from the Store and written back. -/
theorem resolvePermissions_spec_witness :
    resolvePermissions
      { db := { users := [], roles := [], permissions := [], user_roles := [],
                role_permissions := [], audit_logs := [] },
        cache := [⟨"permissions:user:1", ["users:read"], 60⟩],
        sessions := [] } 1 true true false =
      .ok ({ db := { users := [], roles := [], permissions := [], user_roles := [],
                     role_permissions := [], audit_logs := [] },
             cache := [⟨"permissions:user:1", ["users:read"], 60⟩],
             sessions := [] }, ["users:read"]) :=
  (resolvePermissions_spec
    { db := { users := [], roles := [], permissions := [], user_roles := [],
              role_permissions := [], audit_logs := [] },
      cache := [⟨"permissions:user:1", ["users:read"], 60⟩],
      sessions := [] } 1 true true true).1 ["users:read"] (by decide) false

/-! ## Role mutations (src/rbac/roles.ts, part_006) -/

/-- The `WHERE user_id = ? AND role_id = ?` predicate on `user_roles` rows. -/
def bindingPred (userId : Nat) (roleId : String) : UserRoleRow → Bool :=
  fun ur => ur.user_id == userId && ur.role_id == roleId

/-- Number of `user_roles` rows for a (userId, roleId) pair. -/
def countBinding (db : DB) (userId : Nat) (roleId : String) : Nat :=
  db.user_roles.countP (bindingPred userId roleId)

/-- `INSERT OR IGNORE INTO user_roles (user_id, role_id, assigned_at) VALUES (?, ?, ...)`:
a no-op when a row with the same primary key `(user_id, role_id)` exists. -/
def insertOrIgnoreUserRole (db : DB) (userId : Nat) (roleId : String) : DB :=
  if db.user_roles.any (bindingPred userId roleId) then db
  else { db with user_roles := db.user_roles ++ [⟨userId, roleId⟩] }

/-- `DELETE FROM user_roles WHERE user_id = ? AND role_id = ?`. -/
def deleteUserRole (db : DB) (userId : Nat) (roleId : String) : DB :=
  { db with user_roles := db.user_roles.filter (fun ur => !(bindingPred userId roleId ur)) }

/-- `assignRole` (src/rbac/roles.ts): runs the INSERT OR IGNORE, then
invalidates the user's permission cache (a cache failure is swallowed inside
`invalidateCachedPermissions`).  A D1 failure (`storeOk = false`) is caught
and re-thrown as a generic error. -/
def assignRole (st : WorldState) (userId : Nat) (roleId : String)
    (storeOk cacheOk : Bool) : Except String WorldState :=
  if storeOk then
    .ok (invalidateCachedPermissions
      { st with db := insertOrIgnoreUserRole st.db userId roleId } userId cacheOk)
  else .error "Failed to assign role to user"

/-- `removeRole` (src/rbac/roles.ts): runs the DELETE, then invalidates the
user's permission cache; same error shape as `assignRole`. -/
def removeRole (st : WorldState) (userId : Nat) (roleId : String)
    (storeOk cacheOk : Bool) : Except String WorldState :=
  if storeOk then
    .ok (invalidateCachedPermissions
      { st with db := deleteUserRole st.db userId roleId } userId cacheOk)
  else .error "Failed to remove role from user"

theorem invalidateCachedPermissions_db (st : WorldState) (u : Nat) (c : Bool) :
    (invalidateCachedPermissions st u c).db = st.db := by
  unfold invalidateCachedPermissions
  by_cases h : c <;> simp [h]

theorem invalidateCachedPermissions_sessions (st : WorldState) (u : Nat) (c : Bool) :
    (invalidateCachedPermissions st u c).sessions = st.sessions := by
  unfold invalidateCachedPermissions
  by_cases h : c <;> simp [h]

theorem any_iff_countP_pos (l : List UserRoleRow) (p : UserRoleRow → Bool) :
    l.any p = true ↔ 0 < l.countP p := by
  rw [List.any_eq_true, List.countP_pos_iff]

theorem insertOrIgnoreUserRole_of_present (db : DB) (u : Nat) (r : String)
    (h : 0 < countBinding db u r) : insertOrIgnoreUserRole db u r = db := by
  unfold insertOrIgnoreUserRole
  rw [if_pos ((any_iff_countP_pos _ _).mpr h)]

theorem countBinding_insertOrIgnore (db : DB) (u : Nat) (r : String)
    (h : countBinding db u r ≤ 1) :
    countBinding (insertOrIgnoreUserRole db u r) u r = 1 := by
  unfold insertOrIgnoreUserRole
  by_cases hany : db.user_roles.any (bindingPred u r) = true
  · rw [if_pos hany]
    have hpos : 0 < countBinding db u r := (any_iff_countP_pos _ _).mp hany
    exact Nat.le_antisymm h hpos
  · rw [if_neg hany]
    have hzero : countBinding db u r = 0 := by
      by_contra hne
      exact hany ((any_iff_countP_pos _ _).mpr (Nat.pos_of_ne_zero hne))
    unfold countBinding at hzero ⊢
    simp only [List.countP_append, hzero]
    simp [bindingPred, List.countP, List.countP.go]

theorem deleteUserRole_of_absent (db : DB) (u : Nat) (r : String)
    (h : countBinding db u r = 0) : (deleteUserRole db u r).user_roles = db.user_roles := by
  unfold deleteUserRole
  simp only
  rw [List.filter_eq_self]
  intro a ha
  have := (List.countP_eq_zero.mp h) a ha
  simp [this]

theorem assignRole_ok_db (st : WorldState) (u : Nat) (r : String) (c : Bool) :
    ∃ st', assignRole st u r true c = .ok st' ∧
      st'.db = insertOrIgnoreUserRole st.db u r ∧ st'.sessions = st.sessions :=
  ⟨_, rfl, invalidateCachedPermissions_db _ _ _, invalidateCachedPermissions_sessions _ _ _⟩

theorem removeRole_ok_db (st : WorldState) (u : Nat) (r : String) (c : Bool) :
    ∃ st', removeRole st u r true c = .ok st' ∧
      st'.db = deleteUserRole st.db u r ∧ st'.sessions = st.sessions :=
  ⟨_, rfl, invalidateCachedPermissions_db _ _ _, invalidateCachedPermissions_sessions _ _ _⟩

/-- C4: `assignRole` is idempotent — two successive successful calls with the
same (userId, roleId) leave exactly one binding row and the second call
succeeds without changing the binding table; `removeRole` of an absent
binding succeeds and leaves the binding table unchanged.  `hinv` is the
primary-key invariant of `user_roles` (at most one row per pair). -/
theorem assignRole_removeRole_idempotent (st : WorldState) (u : Nat) (r : String)
    (c₁ c₂ c₃ : Bool) (hinv : countBinding st.db u r ≤ 1) :
    (∃ st₁ st₂, assignRole st u r true c₁ = .ok st₁ ∧
        assignRole st₁ u r true c₂ = .ok st₂ ∧
        countBinding st₁.db u r = 1 ∧ countBinding st₂.db u r = 1 ∧
        st₂.db.user_roles = st₁.db.user_roles) ∧
    (countBinding st.db u r = 0 →
        ∃ st₃, removeRole st u r true c₃ = .ok st₃ ∧
          st₃.db.user_roles = st.db.user_roles) := by
  have h₁ : countBinding (insertOrIgnoreUserRole st.db u r) u r = 1 :=
    countBinding_insertOrIgnore st.db u r hinv
  have hpos : 0 < countBinding (insertOrIgnoreUserRole st.db u r) u r := by
    rw [h₁]
    exact Nat.one_pos
  have hfix : insertOrIgnoreUserRole (insertOrIgnoreUserRole st.db u r) u r =
      insertOrIgnoreUserRole st.db u r :=
    insertOrIgnoreUserRole_of_present _ u r hpos
  constructor
  · obtain ⟨st₁, he₁, hdb₁, -⟩ := assignRole_ok_db st u r c₁
    obtain ⟨st₂, he₂, hdb₂, -⟩ := assignRole_ok_db st₁ u r c₂
    refine ⟨st₁, st₂, he₁, he₂, ?_, ?_, ?_⟩
    · rw [hdb₁]
      exact h₁
    · rw [hdb₂, hdb₁, hfix]
      exact h₁
    · rw [hdb₂, hdb₁, hfix]
  · intro hzero
    obtain ⟨st₃, he₃, hdb₃, -⟩ := removeRole_ok_db st u r c₃
    refine ⟨st₃, he₃, ?_⟩
    rw [hdb₃]
    exact deleteUserRole_of_absent st.db u r hzero

/-- Witness for C4 on a concrete state: assigning role `r1` to user 5 twice
from an empty binding table, then checking a removal of an absent binding. -/
theorem assignRole_removeRole_idempotent_witness :
    ((assignRole
        { db := { users := [], roles := [], permissions := [], user_roles := [],
                  role_permissions := [], audit_logs := [] },
          cache := [], sessions := [] } 5 "r1" true true).map
      (fun s₁ => countBinding s₁.db 5 "r1")) = .ok 1 ∧
    ((removeRole
        { db := { users := [], roles := [], permissions := [], user_roles := [],
                  role_permissions := [], audit_logs := [] },
          cache := [], sessions := [] } 5 "r1" true true).map
      (fun s₃ => s₃.db.user_roles)) = .ok [] := by
  have h := assignRole_removeRole_idempotent
    { db := { users := [], roles := [], permissions := [], user_roles := [],
              role_permissions := [], audit_logs := [] },
      cache := [], sessions := [] } 5 "r1" true true true (by decide)
  obtain ⟨⟨st₁, st₂, he₁, -, hc₁, -, -⟩, h₂⟩ := h
  obtain ⟨st₃, he₃, hur₃⟩ := h₂ (by decide)
  constructor
  · rw [he₁]
    simp only [Except.map]
    rw [hc₁]
  · rw [he₃]
    simp only [Except.map]
    rw [hur₃]

/-! ## Role creation (src/rbac/roles.ts `createRole`) -/

/-- A D1 storage error as observed by `createRole`'s catch block: either a
uniqueness violation (whose message carries the constraint name) or any
other failure. -/
inductive D1Error where
  | uniqueConstraint (constraint : String)
  | failure
deriving DecidableEq, Repr

/-- `INSERT INTO roles (id, name, description, created_at) VALUES (?, ?, ?, ...)`.
The store enforces `name TEXT NOT NULL UNIQUE` (migration 004); the generated
id (`crypto.randomUUID()`) is assumed fresh, so only the name constraint can
fire.  `storeOk = false` models a D1 outage. -/
def insertRoleRow (db : DB) (row : RoleRow) (storeOk : Bool) : Except D1Error DB :=
  if storeOk = false then .error .failure
  else if db.roles.any (fun r0 => r0.name == row.name) then
    .error (.uniqueConstraint "roles.name")
  else .ok { db with roles := db.roles ++ [row] }

/-- The error taxonomy `createRole` exposes to callers: the caught D1 message
is inspected for `UNIQUE constraint` and re-thrown as the distinguishable
duplicate-name error; anything else becomes the generic failure. -/
inductive RoleError where
  | duplicateName
  | internalError
deriving DecidableEq, Repr

/-- `createRole` (src/rbac/roles.ts): defaults the description to the empty
string, inserts the row, and maps storage errors as described on `RoleError`. -/
def createRole (db : DB) (roleId name : String) (description : Option String)
    (storeOk : Bool) : Except RoleError (DB × RoleRow) :=
  let roleDescription := description.getD ""
  match insertRoleRow db ⟨roleId, name, roleDescription⟩ storeOk with
  | .ok db₁ => .ok (db₁, ⟨roleId, name, roleDescription⟩)
  | .error (.uniqueConstraint _) => .error .duplicateName
  | .error .failure => .error .internalError

/-! ## Audit logging (src/rbac/audit.ts, part_005) -/

/-- The insert parameters of `logAuditEvent` (src/types/rbac.ts
`AuditLogParams`). -/
structure AuditLogParams where
  action : String
  actorId : Option Nat
  actorUsername : Option String
  targetType : String
  targetId : Option String
  targetName : Option String
  details : Option String
  ipAddress : Option String
  success : Bool
deriving DecidableEq, Repr

/-- The `audit_logs` row produced by the INSERT (timestamp comes from the
store's `CURRENT_TIMESTAMP`, passed here as `now`). -/
def auditRowOfParams (now : Int) (p : AuditLogParams) : AuditLogRow :=
  ⟨now, p.action, p.actorId, p.actorUsername, p.targetType, p.targetId,
    p.targetName, p.details, p.ipAddress, p.success⟩

/-- The try-block of `logAuditEvent`: the D1 INSERT, which appends one row on
success and errors on a storage failure. -/
def runAuditInsert (db : DB) (now : Int) (p : AuditLogParams) (storeOk : Bool) :
    Except String DB :=
  if storeOk then .ok { db with audit_logs := db.audit_logs ++ [auditRowOfParams now p] }
  else .error "D1 insert failed"

/-- `logAuditEvent` (src/rbac/audit.ts): wraps the INSERT in a catch that logs
and swallows every storage error, so the function always returns normally —
on failure the ledger is simply left unchanged. -/
def logAuditEvent (db : DB) (now : Int) (p : AuditLogParams) (storeOk : Bool) : DB :=
  match runAuditInsert db now p storeOk with
  | .ok db₁ => db₁
  | .error _ => db

/-- `JSON.stringify(\x7b roleId, roleName \x7d)` for the `details` payload. -/
def jsonRoleDetails (roleId roleName : String) : String :=
  "\x7b\"roleId\":\"" ++ roleId ++ "\",\"roleName\":\"" ++ roleName ++ "\"\x7d"

/-- `JSON.stringify(\x7b description \x7d)` for the `details` payload of
`logRoleCreated`. -/
def jsonDescriptionDetails (description : String) : String :=
  "\x7b\"description\":\"" ++ description ++ "\"\x7d"

/-- `logRoleAssigned` (src/rbac/audit.ts). -/
def logRoleAssigned (db : DB) (now : Int) (actorId : Nat) (actorUsername : String)
    (targetUserId : Nat) (targetUsername : String) (roleId roleName : String)
    (ipAddress : Option String) (storeOk : Bool) : DB :=
  logAuditEvent db now
    ⟨"ROLE_ASSIGNED", some actorId, some actorUsername, "USER",
      some (toString targetUserId), some targetUsername,
      some (jsonRoleDetails roleId roleName), ipAddress, true⟩ storeOk

/-- `logRoleRemoved` (src/rbac/audit.ts). -/
def logRoleRemoved (db : DB) (now : Int) (actorId : Nat) (actorUsername : String)
    (targetUserId : Nat) (targetUsername : String) (roleId roleName : String)
    (ipAddress : Option String) (storeOk : Bool) : DB :=
  logAuditEvent db now
    ⟨"ROLE_REMOVED", some actorId, some actorUsername, "USER",
      some (toString targetUserId), some targetUsername,
      some (jsonRoleDetails roleId roleName), ipAddress, true⟩ storeOk

/-- `logRoleCreated` (src/rbac/audit.ts): the details payload is only present
for a truthy (non-empty) description. -/
def logRoleCreated (db : DB) (now : Int) (actorId : Nat) (actorUsername : String)
    (roleId roleName : String) (roleDescription : Option String)
    (ipAddress : Option String) (storeOk : Bool) : DB :=
  logAuditEvent db now
    ⟨"ROLE_CREATED", some actorId, some actorUsername, "ROLE",
      some roleId, some roleName,
      (match roleDescription with
       | none => none
       | some d => if d = "" then none else some (jsonDescriptionDetails d)),
      ipAddress, true⟩ storeOk

/-- `logBootstrapSuperAdmin` (src/rbac/audit.ts): a synthetic SYSTEM actor. -/
def logBootstrapSuperAdmin (db : DB) (now : Int) (userId : Nat) (username : String)
    (storeOk : Bool) : DB :=
  logAuditEvent db now
    ⟨"BOOTSTRAP_SUPER_ADMIN", none, some "SYSTEM", "USER",
      some (toString userId), some username,
      some "\x7b\"reason\":\"System bootstrap via RBAC_ADMIN_EMAIL\"\x7d", none, true⟩ storeOk

/-! ## Route handler cores (src/handlers/rbac.ts, part_003) -/

/-- Core of `handleAssignRole` (part_003): the three parallel lookups, the
404 checks for target user and role, `assignRole`, then the best-effort
`logRoleAssigned` (skipped when the actor row is missing).  Returns the HTTP
status and resulting state; a store failure inside `assignRole` is caught by
the handler and mapped to 500. -/
def handleAssignRoleCore (st : WorldState) (now : Int) (actorUsername : String)
    (userId : Nat) (roleId : String) (storeOk cacheOk auditOk : Bool)
    (ip : Option String) : Nat × WorldState :=
  match st.db.users.find? (fun u0 => u0.userID == userId) with
  | none => (404, st)
  | some target =>
    match st.db.roles.find? (fun r0 => r0.id == roleId) with
    | none => (404, st)
    | some role =>
      match assignRole st userId roleId storeOk cacheOk with
      | .error _ => (500, st)
      | .ok st₁ =>
        match st.db.users.find? (fun u0 => u0.username == actorUsername) with
        | none => (200, st₁)
        | some actor =>
          (200, { st₁ with db := (logRoleAssigned st₁.db now actor.userID
            actorUsername target.userID target.username role.id role.name ip auditOk) })

/-- Core of `handleRemoveRole` (part_003), symmetric to the assign handler. -/
def handleRemoveRoleCore (st : WorldState) (now : Int) (actorUsername : String)
    (userId : Nat) (roleId : String) (storeOk cacheOk auditOk : Bool)
    (ip : Option String) : Nat × WorldState :=
  match st.db.users.find? (fun u0 => u0.userID == userId) with
  | none => (404, st)
  | some target =>
    match st.db.roles.find? (fun r0 => r0.id == roleId) with
    | none => (404, st)
    | some role =>
      match removeRole st userId roleId storeOk cacheOk with
      | .error _ => (500, st)
      | .ok st₁ =>
        match st.db.users.find? (fun u0 => u0.username == actorUsername) with
        | none => (200, st₁)
        | some actor =>
          (200, { st₁ with db := (logRoleRemoved st₁.db now actor.userID
            actorUsername target.userID target.username role.id role.name ip auditOk) })

/-- Core of `handleCreateRole` (src/handlers/rbac.ts lines 164-175): create
the role, audit best-effort, and map the duplicate-name error to a 409 with a
fixed generic message and every other failure to a 500.  Returns status,
client-facing error or body marker, and resulting state. -/
def handleCreateRoleCore (st : WorldState) (now : Int) (actorUsername : String)
    (roleId name : String) (description : Option String) (storeOk auditOk : Bool)
    (ip : Option String) : Nat × String × WorldState :=
  match createRole st.db roleId name description storeOk with
  | .error .duplicateName => (409, "Role with that name already exists", st)
  | .error .internalError => (500, "Internal server error", st)
  | .ok (db₁, role) =>
    match db₁.users.find? (fun u0 => u0.username == actorUsername) with
    | none => (201, "created", { st with db := db₁ })
    | some actor =>
      (201, "created", { st with db := (logRoleCreated db₁ now actor.userID
        actorUsername role.id role.name (some role.description) ip auditOk) })

/-- C5: the audit append returns normally for every input and every storage
outcome — success appends exactly one row, failure leaves the ledger
unchanged and is swallowed — and an audit-store failure never changes the
outcome (HTTP status) of the assignRole / removeRole / createRole handler
that invoked it. -/
theorem logAuditEvent_never_blocks (db : DB) (now : Int) (p : AuditLogParams)
    (st : WorldState) (actorU : String) (u : Nat) (r rid nm : String)
    (d : Option String) (c : Bool) (ip : Option String) :
    logAuditEvent db now p true =
      { db with audit_logs := db.audit_logs ++ [auditRowOfParams now p] } ∧
    logAuditEvent db now p false = db ∧
    (handleAssignRoleCore st now actorU u r true c false ip).1 =
      (handleAssignRoleCore st now actorU u r true c true ip).1 ∧
    (handleRemoveRoleCore st now actorU u r true c false ip).1 =
      (handleRemoveRoleCore st now actorU u r true c true ip).1 ∧
    (handleCreateRoleCore st now actorU rid nm d true false ip).1 =
      (handleCreateRoleCore st now actorU rid nm d true true ip).1 := by
  refine ⟨rfl, rfl, ?_, ?_, ?_⟩
  · unfold handleAssignRoleCore
    cases st.db.users.find? (fun u0 => u0.userID == u) with
    | none => rfl
    | some target =>
      cases st.db.roles.find? (fun r0 => r0.id == r) with
      | none => rfl
      | some role =>
        cases st.db.users.find? (fun u0 => u0.username == actorU) with
        | none => rfl
        | some actor => rfl
  · unfold handleRemoveRoleCore
    cases st.db.users.find? (fun u0 => u0.userID == u) with
    | none => rfl
    | some target =>
      cases st.db.roles.find? (fun r0 => r0.id == r) with
      | none => rfl
      | some role =>
        cases st.db.users.find? (fun u0 => u0.username == actorU) with
        | none => rfl
        | some actor => rfl
  · unfold handleCreateRoleCore
    cases createRole st.db rid nm d true with
    | error e => cases e <;> rfl
    | ok pr =>
      obtain ⟨db₁, role⟩ := pr
      dsimp only
      cases db₁.users.find? (fun u0 => u0.username == actorU) with
      | none => rfl
      | some actor => rfl

/-- C7: creating a role whose name is already taken yields the
distinguishable duplicate-name error, which the handler maps to a 409
conflict with a fixed generic message (never the 500 internal error), and no
row is inserted. -/
theorem createRole_duplicate_conflict (st : WorldState) (now : Int)
    (actorU rid name : String) (d : Option String) (aOk : Bool) (ip : Option String)
    (h : st.db.roles.any (fun r0 => r0.name == name) = true) :
    createRole st.db rid name d true = .error .duplicateName ∧
    (handleCreateRoleCore st now actorU rid name d true aOk ip).1 = 409 ∧
    (handleCreateRoleCore st now actorU rid name d true aOk ip).2.1 =
      "Role with that name already exists" ∧
    (handleCreateRoleCore st now actorU rid name d true aOk ip).2.2 = st := by
  have hc : createRole st.db rid name d true = .error .duplicateName := by
    simp [createRole, insertRoleRow, h]
  refine ⟨hc, ?_, ?_, ?_⟩ <;>
  · unfold handleCreateRoleCore
    rw [hc]

/-- Witness for C7: a concrete store already holding a role named MEMBER
rejects a second MEMBER as a 409 duplicate and leaves the state unchanged. -/
theorem createRole_duplicate_conflict_witness :
    createRole
      { users := [], roles := [⟨"r1", "MEMBER", "default"⟩], permissions := [],
        user_roles := [], role_permissions := [], audit_logs := [] }
      "r2" "MEMBER" none true = .error .duplicateName :=
  (createRole_duplicate_conflict
    { db := { users := [], roles := [⟨"r1", "MEMBER", "default"⟩], permissions := [],
              user_roles := [], role_permissions := [], audit_logs := [] },
      cache := [], sessions := [] }
    0 "admin" "r2" "MEMBER" none true none (by decide)).1

/-! ## Bootstrap (src/rbac/bootstrap.ts) -/

/-- `ROLES.SUPER_ADMIN` (src/constants/rbac.ts). -/
def ROLES_SUPER_ADMIN : String := "SUPER_ADMIN"

/-- `getSuperAdminRoleId` (src/rbac/bootstrap.ts):
`SELECT id FROM roles WHERE name = ?` bound to SUPER_ADMIN, first row. -/
def getSuperAdminRoleId (db : DB) : Option String :=
  (db.roles.find? (fun r0 => r0.name == ROLES_SUPER_ADMIN)).map (fun r0 => r0.id)

/-- `userHasSuperAdminRole` (src/rbac/bootstrap.ts): existence of a
`user_roles`-`roles` join row for this user and the SUPER_ADMIN role name —
a direct Store query, deliberately not the cached resolver. -/
def userHasSuperAdminRole (db : DB) (userId : Nat) : Bool :=
  db.user_roles.any (fun ur => ur.user_id == userId &&
    db.roles.any (fun r0 => r0.id == ur.role_id && r0.name == ROLES_SUPER_ADMIN))

/-- Outcome flags for the independently failable calls inside
`bootstrapSuperAdmin`: the user lookup, the role-membership check, the role
lookup, the `assignRole` store write, the cache invalidation, and the audit
insert.  A `false` read/write models the corresponding awaited call
throwing, which the surrounding catch absorbs. -/
structure BootstrapOutcomes where
  findUserOk : Bool
  hasRoleOk : Bool
  findRoleOk : Bool
  assignStoreOk : Bool
  cacheOk : Bool
  auditOk : Bool
deriving DecidableEq, Repr

/-- All network calls succeed. -/
def allBootstrapOk : BootstrapOutcomes := ⟨true, true, true, true, true, true⟩

/-- `bootstrapSuperAdmin` (src/rbac/bootstrap.ts): no-op without a configured
email, a matching user, or the seeded SUPER_ADMIN role; no-op when the user
already holds the role (checked via the direct binding query); otherwise
assign the role and append the bootstrap audit entry.  Every failure inside
the try block is caught and logged, so the function always returns a state
and never propagates an error — a failed call simply leaves the state as it
was at the failure point. -/
def bootstrapSuperAdmin (st : WorldState) (now : Int) (superAdminEmail : Option String)
    (o : BootstrapOutcomes) : WorldState :=
  match superAdminEmail with
  | none => st
  | some email =>
    if o.findUserOk = false then st
    else
      match st.db.users.find? (fun u0 => u0.username == email) with
      | none => st
      | some user =>
        if o.hasRoleOk = false then st
        else if userHasSuperAdminRole st.db user.userID then st
        else if o.findRoleOk = false then st
        else
          match getSuperAdminRoleId st.db with
          | none => st
          | some roleId =>
            match assignRole st user.userID roleId o.assignStoreOk o.cacheOk with
            | .error _ => st
            | .ok st₁ =>
              { st₁ with db := (logBootstrapSuperAdmin st₁.db now user.userID email o.auditOk) }

/-- Number of bootstrap audit entries in the ledger. -/
def countBootstrapAudit (db : DB) : Nat :=
  db.audit_logs.countP (fun a => a.action == "BOOTSTRAP_SUPER_ADMIN")

theorem insertOrIgnoreUserRole_of_absent (db : DB) (u : Nat) (r : String)
    (h : countBinding db u r = 0) :
    insertOrIgnoreUserRole db u r = { db with user_roles := db.user_roles ++ [⟨u, r⟩] } := by
  unfold insertOrIgnoreUserRole
  rw [if_neg]
  intro hany
  have := (any_iff_countP_pos _ _).mp hany
  rw [countBinding] at h
  omega

/-- C6: run twice in sequence with the same configured identifier (all
network calls succeeding, from a state where the configured user exists, the
SUPER_ADMIN role exists, the user does not yet hold it, and no bootstrap
audit entry exists), `bootstrapSuperAdmin` produces exactly one role binding
and exactly one bootstrap audit entry — the second run no-ops on the direct
binding-existence query — and a store failure inside the run is caught,
leaving the state unchanged rather than propagating. -/
theorem bootstrapSuperAdmin_idempotent (st : WorldState) (now now₂ : Int) (email : String)
    (user : UserRow) (rid : String)
    (hu : st.db.users.find? (fun u0 => u0.username == email) = some user)
    (hnohas : userHasSuperAdminRole st.db user.userID = false)
    (hr : getSuperAdminRoleId st.db = some rid)
    (haudit : countBootstrapAudit st.db = 0) :
    countBinding (bootstrapSuperAdmin st now (some email) allBootstrapOk).db user.userID rid = 1 ∧
    countBootstrapAudit (bootstrapSuperAdmin st now (some email) allBootstrapOk).db = 1 ∧
    bootstrapSuperAdmin (bootstrapSuperAdmin st now (some email) allBootstrapOk) now₂
        (some email) allBootstrapOk =
      bootstrapSuperAdmin st now (some email) allBootstrapOk ∧
    (∀ c a, bootstrapSuperAdmin st now (some email) ⟨true, true, true, false, c, a⟩ = st) := by
  -- the SUPER_ADMIN role row behind `hr`
  obtain ⟨r0, hfr, hid⟩ := Option.map_eq_some'.mp hr
  have hmem : r0 ∈ st.db.roles := List.mem_of_find?_eq_some hfr
  have hpred0 := List.find?_some hfr
  have hpred : r0.name = ROLES_SUPER_ADMIN := by simpa using hpred0
  -- the binding is absent before the run
  have hbind0 : countBinding st.db user.userID rid = 0 := by
    by_contra hne
    have hpos : 0 < countBinding st.db user.userID rid := Nat.pos_of_ne_zero hne
    have hany := (any_iff_countP_pos _ _).mpr hpos
    obtain ⟨ur, hurmem, hurp⟩ := List.any_eq_true.mp hany
    have hhas : userHasSuperAdminRole st.db user.userID = true := by
      refine List.any_eq_true.mpr ⟨ur, hurmem, ?_⟩
      simp only [bindingPred, Bool.and_eq_true, beq_iff_eq] at hurp
      simp only [Bool.and_eq_true, beq_iff_eq]
      refine ⟨hurp.1, ?_⟩
      refine List.any_eq_true.mpr ⟨r0, hmem, ?_⟩
      simp only [Bool.and_eq_true, beq_iff_eq]
      exact ⟨by rw [hid, hurp.2], hpred⟩
    rw [hnohas] at hhas
    exact Bool.noConfusion hhas
  -- the state written by the binding insert
  have hins := insertOrIgnoreUserRole_of_absent st.db user.userID rid hbind0
  -- the first run, reduced to an explicit state
  have hrun : bootstrapSuperAdmin st now (some email) allBootstrapOk =
      { invalidateCachedPermissions
          { st with db := insertOrIgnoreUserRole st.db user.userID rid } user.userID true with
        db := (logBootstrapSuperAdmin
          (invalidateCachedPermissions
            { st with db := insertOrIgnoreUserRole st.db user.userID rid } user.userID true).db
          now user.userID email true) } := by
    simp only [bootstrapSuperAdmin, allBootstrapOk, hu, hnohas, hr, assignRole]
    simp
  have hinvdb : (invalidateCachedPermissions
      { st with db := insertOrIgnoreUserRole st.db user.userID rid } user.userID true).db =
      insertOrIgnoreUserRole st.db user.userID rid :=
    invalidateCachedPermissions_db _ _ _
  -- field-level description of the database after the first run
  have hdb : (bootstrapSuperAdmin st now (some email) allBootstrapOk).db =
      { st.db with
          user_roles := st.db.user_roles ++ [⟨user.userID, rid⟩],
          audit_logs := st.db.audit_logs ++
            [auditRowOfParams now
              ⟨"BOOTSTRAP_SUPER_ADMIN", none, some "SYSTEM", "USER",
                some (toString user.userID), some email,
                some "\x7b\"reason\":\"System bootstrap via RBAC_ADMIN_EMAIL\"\x7d",
                none, true⟩] } := by
    rw [hrun]
    dsimp only
    rw [hinvdb, hins]
    simp [logBootstrapSuperAdmin, logAuditEvent, runAuditInsert]
  have hb1 : countBinding (bootstrapSuperAdmin st now (some email) allBootstrapOk).db
      user.userID rid = 1 := by
    rw [countBinding, hdb]
    simp only [List.countP_append]
    rw [show st.db.user_roles.countP (bindingPred user.userID rid) = 0 from hbind0]
    simp [bindingPred]
  have ha1 : countBootstrapAudit (bootstrapSuperAdmin st now (some email) allBootstrapOk).db
      = 1 := by
    rw [countBootstrapAudit, hdb]
    simp only [List.countP_append]
    rw [show st.db.audit_logs.countP (fun a => a.action == "BOOTSTRAP_SUPER_ADMIN") = 0
      from haudit]
    simp [auditRowOfParams]
  refine ⟨hb1, ha1, ?_, ?_⟩
  · -- second run: the direct binding query now reports the role, so it no-ops
    have husers : (bootstrapSuperAdmin st now (some email) allBootstrapOk).db.users
        = st.db.users := by rw [hdb]
    have hroles : (bootstrapSuperAdmin st now (some email) allBootstrapOk).db.roles
        = st.db.roles := by rw [hdb]
    have hfind₂ : (bootstrapSuperAdmin st now (some email) allBootstrapOk).db.users.find?
        (fun u0 => u0.username == email) = some user := by rw [husers]; exact hu
    have hhas₂ : userHasSuperAdminRole
        (bootstrapSuperAdmin st now (some email) allBootstrapOk).db user.userID = true := by
      unfold userHasSuperAdminRole
      refine List.any_eq_true.mpr ⟨⟨user.userID, rid⟩, ?_, ?_⟩
      · rw [hdb]
        exact List.mem_append_right _ (List.mem_singleton.mpr rfl)
      · simp only [Bool.and_eq_true, beq_iff_eq]
        refine ⟨by simp, ?_⟩
        rw [hroles]
        refine List.any_eq_true.mpr ⟨r0, hmem, ?_⟩
        simp only [Bool.and_eq_true, beq_iff_eq]
        exact ⟨by rw [hid], hpred⟩
    generalize hB : bootstrapSuperAdmin st now (some email) allBootstrapOk = B
    rw [hB] at hfind₂ hhas₂
    simp only [bootstrapSuperAdmin, allBootstrapOk, hfind₂, hhas₂]
    simp
  · -- a failing assignRole store write is caught: the state is returned as-is
    intro c a
    simp only [bootstrapSuperAdmin, hu, hnohas, hr, assignRole]
    simp

/-- Witness for C6 on a concrete state: one user, the seeded SUPER_ADMIN
role, no bindings and an empty ledger. -/
theorem bootstrapSuperAdmin_idempotent_witness :
    countBinding
      (bootstrapSuperAdmin
        { db := { users := [⟨1, "admin@test.com", "Ada", "Admin"⟩],
                  roles := [⟨"sa", "SUPER_ADMIN", "the override role"⟩],
                  permissions := [], user_roles := [], role_permissions := [],
                  audit_logs := [] },
          cache := [], sessions := [] } 0 (some "admin@test.com") allBootstrapOk).db 1 "sa" = 1 :=
  (bootstrapSuperAdmin_idempotent
    { db := { users := [⟨1, "admin@test.com", "Ada", "Admin"⟩],
              roles := [⟨"sa", "SUPER_ADMIN", "the override role"⟩],
              permissions := [], user_roles := [], role_permissions := [],
              audit_logs := [] },
      cache := [], sessions := [] } 0 0 "admin@test.com"
    ⟨1, "admin@test.com", "Ada", "Admin"⟩ "sa"
    (by decide) (by decide) (by decide) (by decide)).1

/-! ## Authorization middleware (src/middleware/rbac.ts) -/

/-- Result of a middleware function: `proceed` models returning `void`
(continue to the next handler); `response status msg` models returning a JSON
error response whose body is `\x7b"error": msg\x7d`. -/
inductive MwResult where
  | proceed
  | response (status : Nat) (errorMessage : String)
deriving DecidableEq, Repr

/-- The middleware produced by `requirePermission(permission)`
(src/middleware/rbac.ts): when RBAC is not enabled every request passes
through; otherwise 401 without session data, 403 when the session's
permission set (defaulting to `[]`) lacks the permission, and continue
otherwise. -/
def requirePermission (permission : String) (rbacEnabled : Bool)
    (sessionData : Option SessionData) : MwResult :=
  if rbacEnabled = false then .proceed
  else
    match sessionData with
    | none => .response 401 "Authentication required"
    | some sd =>
      let userPermissions := sd.permissions.getD []
      if hasPermission userPermissions permission = false then
        .response 403 "Insufficient permissions"
      else .proceed

/-- The middleware produced by `requireAnyPermission(permissions)`
(src/middleware/rbac.ts): OR logic over `hasPermission`. -/
def requireAnyPermission (permissions : List String) (rbacEnabled : Bool)
    (sessionData : Option SessionData) : MwResult :=
  if rbacEnabled = false then .proceed
  else
    match sessionData with
    | none => .response 401 "Authentication required"
    | some sd =>
      let userPermissions := sd.permissions.getD []
      if permissions.any (fun p => hasPermission userPermissions p) = false then
        .response 403 "Insufficient permissions"
      else .proceed

/-- The middleware produced by `requireAllPermissions(permissions)`
(src/middleware/rbac.ts): computes the missing subset, logs it server-side
only, and answers with the fixed body `Insufficient permissions` whenever the
subset is non-empty. -/
def requireAllPermissions (permissions : List String) (rbacEnabled : Bool)
    (sessionData : Option SessionData) : MwResult :=
  if rbacEnabled = false then .proceed
  else
    match sessionData with
    | none => .response 401 "Authentication required"
    | some sd =>
      let userPermissions := sd.permissions.getD []
      let missingPermissions :=
        permissions.filter (fun p => !(hasPermission userPermissions p))
      if missingPermissions.length > 0 then
        .response 403 "Insufficient permissions"
      else .proceed

/-- `requireAuth()` (src/middleware/rbac.ts): authentication-only gate. -/
def requireAuth (sessionData : Option SessionData) : MwResult :=
  match sessionData with
  | none => .response 401 "Authentication required"
  | some _ => .proceed

/-- KV session lookup (the session-state worker's `GET /get/:sessionId`). -/
def lookupSession (sessions : List (String × SessionData)) (sessionId : String) :
    Option SessionData :=
  (sessions.find? (fun e => e.1 == sessionId)).map (fun e => e.2)

/-- Result shape of the handler-level `requirePermission` helper
(src/handlers/rbac.ts and part_003): an authorization flag plus the error
response (status and message) to return when not authorized. -/
structure AuthCheckResult where
  authorized : Bool
  error : Option (Nat × String)
deriving DecidableEq, Repr

/-- The handler-level `requirePermission` (part_003 lines 113-154): unlike
the middleware factory above, it denies with 403 `RBAC is not enabled` when
the subsystem is disabled, then checks the session cookie, loads and
validates the session, and checks the permission. -/
def handlerRequirePermission (rbacEnabled : Bool) (sessionId : Option String)
    (sessions : List (String × SessionData)) (permission : String) : AuthCheckResult :=
  if rbacEnabled = false then ⟨false, some (403, "RBAC is not enabled")⟩
  else
    match sessionId with
    | none => ⟨false, some (401, "Authentication required")⟩
    | some sid =>
      match lookupSession sessions sid with
      | none => ⟨false, some (401, "Invalid session")⟩
      | some sd =>
        match sd.permissions with
        | none => ⟨false, some (403, "Insufficient permissions")⟩
        | some perms =>
          if hasPermission perms permission = false then
            ⟨false, some (403, "Insufficient permissions")⟩
          else ⟨true, none⟩

/-- C1 counterexample: with the RBAC subsystem administratively disabled, the
middleware predicate produced by `requirePermission(p)` lets the request
continue to the handler instead of denying it — even with no session at all. -/
theorem requirePermission_disabled_continues :
    requirePermission "users:read" false none = .proceed := rfl

/-- C1 amended: when the RBAC subsystem is administratively disabled, the
middleware predicate produced by `requirePermission(p)` allows every request
through (fails open, as its own doc comment states); it is the handler-level
`requirePermission` helper of the CRUD routes that fails closed, denying with
403 `RBAC is not enabled`. -/
theorem requirePermission_disabled_failopen (p : String) (sd : Option SessionData)
    (sid : Option String) (sessions : List (String × SessionData)) :
    requirePermission p false sd = .proceed ∧
    (handlerRequirePermission false sid sessions p).authorized = false ∧
    (handlerRequirePermission false sid sessions p).error =
      some (403, "RBAC is not enabled") :=
  ⟨rfl, rfl, rfl⟩

/-- C9: with RBAC enabled, `requireAllPermissions(ps)` continues exactly when
`hasPermission` succeeds for every listed permission; every denial carries the
fixed status 403 and body `Insufficient permissions`, so two sessions that are
both denied receive identical responses regardless of which permissions are
missing — the missing subset never reaches the client. -/
theorem requireAllPermissions_spec (ps : List String) (sd sd' : SessionData) :
    (requireAllPermissions ps true (some sd) = .proceed ↔
      ∀ p ∈ ps, hasPermission (sd.permissions.getD []) p = true) ∧
    (requireAllPermissions ps true (some sd) ≠ .proceed →
      requireAllPermissions ps true (some sd) =
        .response 403 "Insufficient permissions") ∧
    (requireAllPermissions ps true (some sd) ≠ .proceed →
      requireAllPermissions ps true (some sd') ≠ .proceed →
      requireAllPermissions ps true (some sd) =
        requireAllPermissions ps true (some sd')) := by
  have hshape : ∀ s : SessionData,
      requireAllPermissions ps true (some s) = .proceed ∨
      requireAllPermissions ps true (some s) =
        .response 403 "Insufficient permissions" := by
    intro s
    unfold requireAllPermissions
    by_cases h :
        (ps.filter (fun p => !(hasPermission (s.permissions.getD []) p))).length > 0 <;>
      simp [h]
  refine ⟨?_, ?_, ?_⟩
  · unfold requireAllPermissions
    by_cases h :
        (ps.filter (fun p => !(hasPermission (sd.permissions.getD []) p))).length > 0
    · simp only [h, if_true]
      constructor
      · intro habs
        exact absurd habs (by simp)
      · intro hall
        exfalso
        have hnil : ps.filter (fun p => !(hasPermission (sd.permissions.getD []) p)) = [] := by
          rw [List.filter_eq_nil_iff]
          intro a ha
          rw [hall a ha]
          simp
        rw [hnil] at h
        simp at h
    · simp only [h, if_false]
      constructor
      · intro _ p hp
        by_contra hnp
        have hmem : p ∈ ps.filter (fun q => !(hasPermission (sd.permissions.getD []) q)) := by
          rw [List.mem_filter]
          exact ⟨hp, by simp [Bool.eq_false_iff.mpr hnp]⟩
        have : 0 < (ps.filter (fun q => !(hasPermission (sd.permissions.getD []) q))).length :=
          List.length_pos_of_mem hmem
        omega
      · intro _
        simp
  · intro hne
    rcases hshape sd with h | h
    · exact absurd h hne
    · exact h
  · intro hne hne'
    rcases hshape sd with h | h
    · exact absurd h hne
    · rcases hshape sd' with h' | h'
      · exact absurd h' hne'
      · rw [h, h']

/-- Witness for C9, the spec's scenario: a principal holding only
`users:read` calls `requireAllPermissions(["users:read", "users:write"])` and
receives a 403 whose body is the fixed string with no mention of
`users:write`. -/
theorem requireAllPermissions_spec_witness :
    requireAllPermissions ["users:read", "users:write"] true
      (some ⟨"alice", "Alice", "A", some ["users:read"]⟩) =
      .response 403 "Insufficient permissions" :=
  (requireAllPermissions_spec ["users:read", "users:write"]
      ⟨"alice", "Alice", "A", some ["users:read"]⟩
      ⟨"alice", "Alice", "A", some ["users:read"]⟩).2.1
    (by decide)

/-! ## Sessions (src/session.ts, src/middleware/session.ts) -/

theorem setCachedPermissions_sessions (st : WorldState) (u : Nat) (perms : List String)
    (ttl : Nat) (w : Bool) :
    (setCachedPermissions st u perms ttl w).sessions = st.sessions := by
  unfold setCachedPermissions
  by_cases h : w <;> simp [h]

theorem resolvePermissions_dbOk (st : WorldState) (u : Nat) (ro wo : Bool) :
    ∃ st₁ perms, resolvePermissions st u ro wo true = .ok (st₁, perms) ∧
      st₁.sessions = st.sessions := by
  unfold resolvePermissions
  cases h : getCachedPermissions st u ro with
  | some v => exact ⟨st, v, rfl, rfl⟩
  | none =>
    exact ⟨_, _, rfl, setCachedPermissions_sessions st u
      (getUserPermissions st.db u) CACHE_TTL_SECONDS wo⟩

/-- `createSession` (src/session.ts): builds the session payload once, at
login — with RBAC enabled the permission set is resolved here (a resolver
error is caught and the session continues without permissions) — and stores
the payload under a fresh id in the session-state worker. -/
def createSession (st : WorldState) (user : UserRow) (rbacEnabled : Bool)
    (readOk writeOk dbOk : Bool) (newSessionId : String) : WorldState × String :=
  if rbacEnabled then
    match resolvePermissions st user.userID readOk writeOk dbOk with
    | .ok (st₁, perms) =>
      ({ st₁ with sessions :=
          (newSessionId, ⟨user.username, user.firstName, user.lastName, some perms⟩)
            :: st₁.sessions }, newSessionId)
    | .error _ =>
      ({ st with sessions :=
          (newSessionId, ⟨user.username, user.firstName, user.lastName, none⟩)
            :: st.sessions }, newSessionId)
  else
    ({ st with sessions :=
        (newSessionId, ⟨user.username, user.firstName, user.lastName, none⟩)
          :: st.sessions }, newSessionId)

/-- `loadSession` (src/session.ts): returns the stored payload verbatim. -/
def loadSession (st : WorldState) (sessionId : String) : Option SessionData :=
  lookupSession st.sessions sessionId

/-- `withSession` middleware (src/middleware/session.ts): 401 without a
session cookie or stored session, otherwise attaches the stored payload
unchanged for every downstream permission predicate. -/
def withSession (st : WorldState) (sessionId : Option String) :
    Except (Nat × String) SessionData :=
  match sessionId with
  | none => .error (401, "No session found")
  | some sid =>
    match loadSession st sid with
    | none => .error (401, "Invalid or expired session")
    | some sd => .ok sd

/-- C10: the embedded permission set is computed once, at `createSession`;
`assignRole`/`removeRole` never touch stored sessions, and loading the
session after a role mutation still returns the pre-mutation payload, which
is what `withSession` hands to every authorization predicate. -/
theorem session_permissions_frozen (st : WorldState) (user : UserRow) (sid : String)
    (ro wo c₁ c₂ : Bool) (u₂ : Nat) (r : String) :
    (∀ st', assignRole st u₂ r true c₁ = .ok st' → st'.sessions = st.sessions) ∧
    (∀ st', removeRole st u₂ r true c₂ = .ok st' → st'.sessions = st.sessions) ∧
    (∃ perms,
      loadSession (createSession st user true ro wo true sid).1 sid =
        some ⟨user.username, user.firstName, user.lastName, some perms⟩ ∧
      (∀ st₂, assignRole (createSession st user true ro wo true sid).1 u₂ r true c₁ = .ok st₂ →
        loadSession st₂ sid =
          some ⟨user.username, user.firstName, user.lastName, some perms⟩ ∧
        withSession st₂ (some sid) =
          .ok ⟨user.username, user.firstName, user.lastName, some perms⟩)) := by
  obtain ⟨st₁, perms, hres, -⟩ := resolvePermissions_dbOk st user.userID ro wo
  have hassign : ∀ s : WorldState, ∀ st', assignRole s u₂ r true c₁ = .ok st' →
      st'.sessions = s.sessions := by
    intro s st' he
    obtain ⟨st'', he'', -, hsess⟩ := assignRole_ok_db s u₂ r c₁
    rw [he] at he''
    injection he'' with h
    rw [h]
    exact hsess
  have hcreate : (createSession st user true ro wo true sid).1.sessions =
      (sid, ⟨user.username, user.firstName, user.lastName, some perms⟩) :: st₁.sessions := by
    simp [createSession, hres]
  refine ⟨hassign st, ?_, perms, ?_, ?_⟩
  · intro st' he
    obtain ⟨st'', he'', -, hsess⟩ := removeRole_ok_db st u₂ r c₂
    rw [he] at he''
    injection he'' with h
    rw [h]
    exact hsess
  · unfold loadSession lookupSession
    rw [hcreate]
    simp [List.find?]
  · intro st₂ he
    have hsess₂ : st₂.sessions =
        (sid, ⟨user.username, user.firstName, user.lastName, some perms⟩) :: st₁.sessions := by
      rw [hassign _ _ he, hcreate]
    have hload : loadSession st₂ sid =
        some ⟨user.username, user.firstName, user.lastName, some perms⟩ := by
      unfold loadSession lookupSession
      rw [hsess₂]
      simp [List.find?]
    refine ⟨hload, ?_⟩
    simp [withSession, hload]

/-- Witness for C10: a concrete login followed by a role assignment; the
session still serves the pre-mutation (empty) permission set. -/
theorem session_permissions_frozen_witness :
    ((assignRole
        (createSession
          { db := { users := [⟨1, "alice", "Alice", "A"⟩],
                    roles := [⟨"r1", "MODERATOR", ""⟩], permissions := [],
                    user_roles := [], role_permissions := [], audit_logs := [] },
            cache := [], sessions := [] }
          ⟨1, "alice", "Alice", "A"⟩ true true true true "sid-1").1 1 "r1" true true).map
      (fun st₂ => loadSession st₂ "sid-1")) =
      .ok (some ⟨"alice", "Alice", "A", some []⟩) := by
  have h := (session_permissions_frozen
    { db := { users := [⟨1, "alice", "Alice", "A"⟩],
              roles := [⟨"r1", "MODERATOR", ""⟩], permissions := [],
              user_roles := [], role_permissions := [], audit_logs := [] },
      cache := [], sessions := [] }
    ⟨1, "alice", "Alice", "A"⟩ "sid-1" true true true true 1 "r1").2.2
  obtain ⟨perms, hload, hmut⟩ := h
  have hperms : perms = [] := by
    have := hload
    simp [createSession, resolvePermissions, getCachedPermissions, lookupCache,
      loadSession, lookupSession, List.find?, setCachedPermissions, cachePut,
      getUserPermissions, queryUserPermissionNames] at this
    exact this
  obtain ⟨st₂, he₂, -, -⟩ := assignRole_ok_db
    (createSession
      { db := { users := [⟨1, "alice", "Alice", "A"⟩],
                roles := [⟨"r1", "MODERATOR", ""⟩], permissions := [],
                user_roles := [], role_permissions := [], audit_logs := [] },
        cache := [], sessions := [] }
      ⟨1, "alice", "Alice", "A"⟩ true true true true "sid-1").1 1 "r1" true
  rw [he₂]
  simp only [Except.map]
  rw [(hmut st₂ he₂).1, hperms]

/-! ## Audit log queries (src/rbac/audit.ts `getAuditLogs`, part_003
`handleGetAuditLogs`) -/

/-- `AuditLogQueryParams` (src/rbac/audit.ts): all filters optional; dates
are already-parsed instants (the handler drops unparsable dates before this
point). -/
structure AuditLogQueryParams where
  action : Option String
  actorId : Option Nat
  actorUsername : Option String
  targetType : Option String
  targetId : Option String
  startDate : Option Int
  endDate : Option Int
  limit : Option Nat
  offset : Option Nat
deriving DecidableEq, Repr

/-- The conjunctive WHERE clause built by `getAuditLogs`: one condition per
present filter (`timestamp >= startDate`, `timestamp <= endDate`). -/
def matchesAuditFilters (p : AuditLogQueryParams) (row : AuditLogRow) : Bool :=
  (match p.action with | none => true | some a => row.action == a) &&
  (match p.actorId with | none => true | some i => row.actorId == some i) &&
  (match p.actorUsername with | none => true | some s => row.actorUsername == some s) &&
  (match p.targetType with | none => true | some t => row.targetType == t) &&
  (match p.targetId with | none => true | some t => row.targetId == some t) &&
  (match p.startDate with | none => true | some s => decide (s ≤ row.timestamp)) &&
  (match p.endDate with | none => true | some e => decide (row.timestamp ≤ e))

/-- `ORDER BY timestamp DESC` (ties in store order). -/
def insertByTimestampDesc (row : AuditLogRow) : List AuditLogRow → List AuditLogRow
  | [] => [row]
  | x :: xs =>
    if x.timestamp ≤ row.timestamp then row :: x :: xs
    else x :: insertByTimestampDesc row xs

/-- Sort newest-first. -/
def sortByTimestampDesc (rows : List AuditLogRow) : List AuditLogRow :=
  rows.foldr insertByTimestampDesc []

/-- `getAuditLogs` (src/rbac/audit.ts): filter conjunctively, order newest
first, then apply `LIMIT ? OFFSET ?` with defaults 100 and 0. -/
def getAuditLogs (db : DB) (p : AuditLogQueryParams) : List AuditLogRow :=
  ((sortByTimestampDesc (db.audit_logs.filter (matchesAuditFilters p))).drop
    (p.offset.getD 0)).take (p.limit.getD 100)

/-- Outcome of the audit-log route: `rejected` is returned before any Store
query; `queried` records that `getAuditLogs` hit the Store. -/
inductive AuditQueryOutcome where
  | rejected (status : Nat) (message : String)
  | queried (logs : List AuditLogRow)
deriving DecidableEq, Repr

/-- The date-range validation and query of `handleGetAuditLogs` (part_003
lines 631-651): when both dates are present and `startDate > endDate` the
request is rejected with 400 before `getAuditLogs` runs. -/
def handleGetAuditLogsCore (db : DB) (p : AuditLogQueryParams) : AuditQueryOutcome :=
  match p.startDate, p.endDate with
  | some s, some e =>
    if s > e then .rejected 400 "startDate must be before endDate"
    else .queried (getAuditLogs db p)
  | _, _ => .queried (getAuditLogs db p)

/-- C8: a query carrying both dates with `startDate > endDate` is rejected
with a 400 validation error, and the outcome is the same for every database —
the Store is never consulted. -/
theorem auditQuery_invalid_range_rejected (db : DB) (p : AuditLogQueryParams)
    (s e : Int) (hs : p.startDate = some s) (he : p.endDate = some e) (hlt : e < s) :
    handleGetAuditLogsCore db p = .rejected 400 "startDate must be before endDate" ∧
    (∀ db', handleGetAuditLogsCore db' p = handleGetAuditLogsCore db p) := by
  have hrej : ∀ d : DB,
      handleGetAuditLogsCore d p = .rejected 400 "startDate must be before endDate" := by
    intro d
    unfold handleGetAuditLogsCore
    rw [hs, he]
    simp only
    rw [if_pos hlt]
  exact ⟨hrej db, fun db' => by rw [hrej db', hrej db]⟩

/-- Witness for C8: `startDate = 10 > endDate = 5` is rejected up front on a
concrete (empty) store. -/
theorem auditQuery_invalid_range_rejected_witness :
    handleGetAuditLogsCore
      { users := [], roles := [], permissions := [], user_roles := [],
        role_permissions := [], audit_logs := [] }
      ⟨none, none, none, none, none, some 10, some 5, none, none⟩ =
      .rejected 400 "startDate must be before endDate" :=
  (auditQuery_invalid_range_rejected
    { users := [], roles := [], permissions := [], user_roles := [],
      role_permissions := [], audit_logs := [] }
    ⟨none, none, none, none, none, some 10, some 5, none, none⟩
    10 5 rfl rfl (by decide)).1
